import Mathlib

/-!
Formal model of the ignition-sensors Lidar component
(`include/ignition/sensors/Lidar.hh`).

The repository ships only the header `Lidar.hh`, which declares the
`Lidar` class and its private data (`LidarPrivate`) but contains no
function bodies.  The data model below (buffer defaults, field types,
signed accessor indices) is taken from the header; every algorithmic
body is modelled from the specification, as noted on each definition.
Real-valued quantities (`double` in the header) are modelled as `ℚ`.
-/

/-- Modelled from the spec: one raw sample per simulated ray, a
`(distance, intensity, fiducialId)` triple produced by the
intersection backend (spec section 3, `RawSample`). -/
structure RawSample where
  distance : ℚ
  intensity : ℚ
  fiducialId : ℤ
deriving DecidableEq

instance : Inhabited RawSample := ⟨⟨0, 0, -1⟩⟩

/-- Modelled from the spec: clamp one input sample's distance to
`[rangeMin, rangeMax]` before interpolating (spec section 4.2,
clamp-then-interpolate design choice; values below `rangeMin` are
reported as `rangeMin`, no-detection values beyond `rangeMax` become
`rangeMax`). -/
def clampSample (rmin rmax : ℚ) (s : RawSample) : RawSample :=
  { s with distance := max rmin (min rmax s.distance) }

/-- Linear interpolation between two rationals at parameter `f`. -/
def lerpQ (f a b : ℚ) : ℚ := a + f * (b - a)

/-- Modelled from the spec: linear interpolation of two raw samples at
fractional parameter `f`; the fiducial id is taken from the nearer of
the two samples, never interpolated (spec section 4.2, upsampling). -/
def sampleLerp (f : ℚ) (a b : RawSample) : RawSample :=
  { distance := lerpQ f a.distance b.distance
    intensity := lerpQ f a.intensity b.intensity
    fiducialId := if f < 1 / 2 then a.fiducialId else b.fiducialId }

/-- Modelled from the spec: the fractional raw-ray position
`outputIndex * ratio` with `ratio = rayCount / rangeCount`
(spec sections 4.2 and glossary). -/
def samplePos (rayCount rangeCount i : ℕ) : ℚ :=
  (i : ℚ) * rayCount / rangeCount

/-- Modelled from the spec: the raw index nearest the fractional
position, using round-to-nearest, clamped into the raw index range
(spec section 4.2, downsampling, and section 9, rounding fixed as
round-to-nearest). -/
def nearestIdx (rayCount rangeCount i : ℕ) : ℕ :=
  min (round (samplePos rayCount rangeCount i)).toNat (rayCount - 1)

/-- Modelled from the spec: the lower of the two raw neighbors of the
fractional position, clamped into the raw index range (spec
section 4.2, upsampling). -/
def lowerIdx (rayCount rangeCount i : ℕ) : ℕ :=
  min (⌊samplePos rayCount rangeCount i⌋).toNat (rayCount - 1)

/-- Modelled from the spec: the upper of the two raw neighbors of the
fractional position, clamped into the raw index range (spec
section 4.2, upsampling). -/
def upperIdx (rayCount rangeCount i : ℕ) : ℕ :=
  min ((⌊samplePos rayCount rangeCount i⌋).toNat + 1) (rayCount - 1)

/-- Modelled from the spec: the fractional part of the position, the
interpolation parameter between the two neighbors (spec section 4.2). -/
def fracPos (rayCount rangeCount i : ℕ) : ℚ :=
  Int.fract (samplePos rayCount rangeCount i)

/-- Modelled from the spec: one-axis resampling of a ray-indexed buffer
into a range-indexed buffer (spec section 4.2, `RangeResampler`).
For `rangeCount ≤ rayCount` (passthrough and downsampling) each output
index selects the raw element nearest `outputIndex * ratio`; when
`rangeCount = rayCount` that position is exactly `outputIndex`, which
is the spec's index-for-index passthrough.  For `rangeCount > rayCount`
(upsampling) each output linearly interpolates the two nearest raw
elements. -/
def resample1D {α : Type} [Inhabited α] (lerp : ℚ → α → α → α)
    (rayCount rangeCount : ℕ) (raw : List α) : List α :=
  (List.range rangeCount).map (fun i =>
    if rangeCount ≤ rayCount then
      raw.getD (nearestIdx rayCount rangeCount i) default
    else
      lerp (fracPos rayCount rangeCount i)
        (raw.getD (lowerIdx rayCount rangeCount i) default)
        (raw.getD (upperIdx rayCount rangeCount i) default))

/-- Modelled from the spec: single-axis range resampling of raw samples,
clamping every input sample to `[rangeMin, rangeMax]` before any
selection or interpolation (spec section 4.2). -/
def resampleAxis (rmin rmax : ℚ) (rayCount rangeCount : ℕ)
    (raw : List RawSample) : List RawSample :=
  resample1D sampleLerp rayCount rangeCount (raw.map (clampSample rmin rmax))

/-- Modelled from the spec: elementwise interpolation of two whole rows,
used for the vertical resampling axis (spec section 4.2; rows have no
cross-dependency, spec section 5). -/
def rowLerp (f : ℚ) (r1 r2 : List RawSample) : List RawSample :=
  List.zipWith (sampleLerp f) r1 r2

/-- Configuration stored by the sensor: ray counts, range counts, angle
bounds and range limits.  The fields mirror `LidarPrivate`
(`horzRayCount`, `vertRayCount`, `horzRangeCount`, `vertRangeCount`,
`rangeMin`, `rangeMax` in `Lidar.hh`) plus the angle bounds the header
exposes through `AngleMin`/`AngleMax` and their vertical variants. -/
structure LidarConfig where
  horzRayCount : ℕ
  vertRayCount : ℕ
  horzRangeCount : ℕ
  vertRangeCount : ℕ
  angleMin : ℚ
  angleMax : ℚ
  verticalAngleMin : ℚ
  verticalAngleMax : ℚ
  rangeMin : ℚ
  rangeMax : ℚ
deriving DecidableEq

/-- The all-zero configuration of a freshly constructed sensor. -/
def defaultConfig : LidarConfig := ⟨0, 0, 0, 0, 0, 0, 0, 0, 0, 0⟩

instance : Inhabited LidarConfig := ⟨defaultConfig⟩

/-- Modelled from the spec: a configuration is valid when every count is
positive and each angle interval and the range interval are ordered
(spec sections 3 and 4.1). -/
def validConfig (c : LidarConfig) : Prop :=
  0 < c.horzRayCount ∧ 0 < c.vertRayCount ∧ 0 < c.horzRangeCount ∧
    0 < c.vertRangeCount ∧ c.angleMin ≤ c.angleMax ∧
    c.verticalAngleMin ≤ c.verticalAngleMax ∧ c.rangeMin ≤ c.rangeMax

instance (c : LidarConfig) : Decidable (validConfig c) := by
  unfold validConfig
  infer_instance

/-- Modelled from the spec: full-grid resampling, horizontal axis within
each row followed by the vertical axis across rows (spec section 4.2).
Clamping of the input samples happens inside `resampleAxis`, before
any interpolation. -/
def resampleGrid (c : LidarConfig) (grid : List (List RawSample)) :
    List (List RawSample) :=
  resample1D rowLerp c.vertRayCount c.vertRangeCount
    (grid.map (resampleAxis c.rangeMin c.rangeMax c.horzRayCount c.horzRangeCount))

/-- Error taxonomy of the sensor, modelled from the spec (section 7):
configuration errors, use before initialization, a backend that cannot
produce a grid this tick, an accessor index out of range, and a failed
publish. -/
inductive LidarError where
  | configError
  | notInited
  | backendUnavailable
  | indexOutOfRange
  | transportFail
deriving DecidableEq

/-- The buffers owned by the sensor after an update: the resampled
ranges, intensities and fiducial ids (spec section 3, `ScanBuffer`). -/
structure ScanBuffer where
  ranges : List ℚ
  intensities : List ℚ
  fiducials : List ℤ
deriving DecidableEq

/-- Sensor state: stored configuration, the `initialized` flag of
`LidarPrivate` (modelled as `inited`), the active flag, and the raw
laser buffer, `none` standing for the header's null
`laserBuffer` pointer. -/
structure LidarState where
  cfg : LidarConfig
  inited : Bool
  active : Bool
  laserBuffer : Option ScanBuffer
deriving DecidableEq

/-- A freshly constructed sensor: per the header defaults,
`initialized = false` and `laserBuffer = nullptr`
(`Lidar.hh` lines 66 and 69). -/
def Lidar.new : LidarState :=
  { cfg := defaultConfig, inited := false, active := false, laserBuffer := none }

/-- Modelled from the spec: `Load` validates the configuration, stores
it, and marks the sensor loaded; an invalid configuration is a
configuration error (spec section 4.4).  The header documents the
`initialized` flag as set when `Load()` succeeds. -/
def Lidar.Load (s : LidarState) (c : LidarConfig) : Except LidarError LidarState :=
  if validConfig c then
    .ok { s with cfg := c, inited := true }
  else
    .error .configError

/-- Modelled from the spec: `Init` fails before a successful `Load`,
otherwise allocates the buffers and activates the sensor
(spec section 4.4). -/
def Lidar.Init (s : LidarState) : Except LidarError LidarState :=
  if s.inited then
    .ok { s with
      active := true,
      laserBuffer := some
        ⟨List.replicate (s.cfg.horzRangeCount * s.cfg.vertRangeCount) s.cfg.rangeMax,
          List.replicate (s.cfg.horzRangeCount * s.cfg.vertRangeCount) 0,
          List.replicate (s.cfg.horzRangeCount * s.cfg.vertRangeCount) (-1)⟩ }
  else
    .error .notInited

/-- Modelled from the spec: radians between consecutive horizontal
ranges, `(angleMax - angleMin) / max (rangeCount - 1) 1`
(spec section 3). -/
def Lidar.AngleResolution (s : LidarState) : ℚ :=
  (s.cfg.angleMax - s.cfg.angleMin) / (max (s.cfg.horzRangeCount - 1) 1 : ℕ)

/-- Modelled from the spec: the vertical analogue of
`Lidar.AngleResolution` (spec section 3). -/
def Lidar.VerticalAngleResolution (s : LidarState) : ℚ :=
  (s.cfg.verticalAngleMax - s.cfg.verticalAngleMin) / (max (s.cfg.vertRangeCount - 1) 1 : ℕ)

/-- Modelled from the spec: build the scan buffer of one tick by
resampling the raw grid and flattening it row-major into the range,
intensity and fiducial arrays (spec sections 4.2 and 4.3). -/
def mkScanBuffer (c : LidarConfig) (grid : List (List RawSample)) : ScanBuffer :=
  { ranges := ((resampleGrid c grid).flatten).map (fun s => s.distance)
    intensities := ((resampleGrid c grid).flatten).map (fun s => s.intensity)
    fiducials := ((resampleGrid c grid).flatten).map (fun s => s.fiducialId) }

/-- Outcome of one `Update` tick: whether it reported success, the
sensor state afterwards, and whether the frame callbacks fired. -/
structure UpdateResult where
  success : Bool
  state : LidarState
  callbackFired : Bool
deriving DecidableEq

/-- Modelled from the spec: one update tick (spec section 4.4).
`backend` is the intersection backend's response for this tick,
`none` when it cannot supply a grid.  An inactive or unloaded sensor
is a success-no-change no-op; a missing backend grid is a skipped
failed tick that keeps the previous buffer and fires no callback;
otherwise the resampled buffer replaces the current one and the
callbacks fire. -/
def Lidar.Update (s : LidarState) (backend : Option (List (List RawSample))) :
    UpdateResult :=
  if s.active = false ∨ s.inited = false then
    ⟨true, s, false⟩
  else
    match backend with
    | none => ⟨false, s, false⟩
    | some grid =>
        ⟨true, { s with laserBuffer := some (mkScanBuffer s.cfg grid) }, true⟩

/-- Modelled from the spec: bounds-checked range accessor.  The header
takes a signed `int` index; any index outside
`[0, horzRangeCount * vertRangeCount)` is an out-of-range error
(spec sections 4.3 and 7), and reading before the buffer exists is a
not-initialized error rather than a read through the null pointer. -/
def Lidar.Range (s : LidarState) (i : ℤ) : Except LidarError ℚ :=
  if i < 0 ∨ ((s.cfg.horzRangeCount * s.cfg.vertRangeCount : ℕ) : ℤ) ≤ i then
    .error .indexOutOfRange
  else
    match s.laserBuffer with
    | none => .error .notInited
    | some buf => .ok (buf.ranges.getD i.toNat s.cfg.rangeMax)

/-- Modelled from the spec: bounds-checked retro (intensity) accessor,
same index discipline as `Lidar.Range` (spec sections 4.3 and 7). -/
def Lidar.Retro (s : LidarState) (i : ℤ) : Except LidarError ℚ :=
  if i < 0 ∨ ((s.cfg.horzRangeCount * s.cfg.vertRangeCount : ℕ) : ℤ) ≤ i then
    .error .indexOutOfRange
  else
    match s.laserBuffer with
    | none => .error .notInited
    | some buf => .ok (buf.intensities.getD i.toNat 0)

/-- Modelled from the spec: bounds-checked fiducial accessor; the header
takes an unsigned index (spec sections 4.3 and 7). -/
def Lidar.Fiducial (s : LidarState) (i : ℕ) : Except LidarError ℤ :=
  if s.cfg.horzRangeCount * s.cfg.vertRangeCount ≤ i then
    .error .indexOutOfRange
  else
    match s.laserBuffer with
    | none => .error .notInited
    | some buf => .ok (buf.fiducials.getD i (-1))

/-- Modelled from the spec: bulk accessor returning all current ranges
(spec section 4.3); fails before a buffer exists. -/
def Lidar.Ranges (s : LidarState) : Except LidarError (List ℚ) :=
  match s.laserBuffer with
  | none => .error .notInited
  | some buf => .ok buf.ranges

/-- A sample valid configuration, the spec's worked example: 8
horizontal rays resampled to 4 ranges over angles `[-1, 1]`, one
vertical row, ranges in `[0, 10]`. -/
def exampleConfig : LidarConfig := ⟨8, 1, 4, 1, -1, 1, 0, 0, 0, 10⟩

/-- The sensor state right after a successful `Load` of
`exampleConfig` into a fresh sensor. -/
def exampleLoaded : LidarState :=
  { cfg := exampleConfig, inited := true, active := false, laserBuffer := none }

/-- A loaded, initialized and active sensor used as a concrete update
witness state. -/
def exampleActive : LidarState :=
  { cfg := exampleConfig, inited := true, active := true, laserBuffer := none }

/-! Auxiliary lemmas about the resampler. -/

lemma getD_map_lt {α β : Type} [Inhabited α] [Inhabited β] (f : α → β)
    (l : List α) (j : ℕ) (h : j < l.length) :
    (l.map f).getD j default = f (l.getD j default) := by
  rw [List.getD_eq_getElem (l.map f) default (by simpa using h),
    List.getElem_map, List.getD_eq_getElem l default h]

lemma clampSample_fiducialId (rmin rmax : ℚ) (s : RawSample) :
    (clampSample rmin rmax s).fiducialId = s.fiducialId := rfl

lemma clampSample_distance (rmin rmax : ℚ) (s : RawSample) :
    (clampSample rmin rmax s).distance = max rmin (min rmax s.distance) := rfl

lemma clampSample_eq_self (rmin rmax : ℚ) (s : RawSample)
    (h1 : rmin ≤ s.distance) (h2 : s.distance ≤ rmax) :
    clampSample rmin rmax s = s := by
  cases s with
  | mk d it fid =>
      simp only [clampSample]
      simp_all [min_eq_right, max_eq_right]

lemma lerpQ_bounds (f a b : ℚ) (h0 : 0 ≤ f) (h1 : f ≤ 1) :
    min a b ≤ lerpQ f a b ∧ lerpQ f a b ≤ max a b := by
  unfold lerpQ
  rcases le_total a b with h | h
  · rw [min_eq_left h, max_eq_right h]
    constructor <;> nlinarith
  · rw [min_eq_right h, max_eq_left h]
    constructor <;> nlinarith

lemma resample1D_length {α : Type} [Inhabited α] (lerp : ℚ → α → α → α)
    (rayCount rangeCount : ℕ) (raw : List α) :
    (resample1D lerp rayCount rangeCount raw).length = rangeCount := by
  unfold resample1D
  simp

lemma resample1D_getD {α : Type} [Inhabited α] (lerp : ℚ → α → α → α)
    (rayCount rangeCount : ℕ) (raw : List α) (i : ℕ) (hi : i < rangeCount) :
    (resample1D lerp rayCount rangeCount raw).getD i default =
      if rangeCount ≤ rayCount then
        raw.getD (nearestIdx rayCount rangeCount i) default
      else
        lerp (fracPos rayCount rangeCount i)
          (raw.getD (lowerIdx rayCount rangeCount i) default)
          (raw.getD (upperIdx rayCount rangeCount i) default) := by
  unfold resample1D
  rw [List.getD_eq_getElem _ default (by simpa using hi)]
  simp

lemma samplePos_nonneg (rayCount rangeCount i : ℕ) :
    0 ≤ samplePos rayCount rangeCount i := by
  unfold samplePos
  positivity

lemma samplePos_self (n i : ℕ) (hn : 0 < n) : samplePos n n i = i := by
  unfold samplePos
  rw [mul_div_assoc, div_self (by exact_mod_cast hn.ne'), mul_one]

lemma samplePos_lt (rayCount rangeCount i : ℕ) (hray : 0 < rayCount)
    (hrng : 0 < rangeCount) (hi : i < rangeCount) :
    samplePos rayCount rangeCount i < rayCount := by
  unfold samplePos
  rw [div_lt_iff₀ (by exact_mod_cast hrng)]
  have h1 : (i : ℚ) < rangeCount := by exact_mod_cast hi
  have h2 : (0 : ℚ) < rayCount := by exact_mod_cast hray
  nlinarith

lemma samplePos_le_down (rayCount rangeCount i : ℕ) (hrng : 0 < rangeCount)
    (hle : rangeCount ≤ rayCount) (hi : i < rangeCount) :
    samplePos rayCount rangeCount i ≤ (rayCount : ℚ) - 1 := by
  unfold samplePos
  rw [div_le_iff₀ (by exact_mod_cast hrng)]
  have h1 : (i : ℚ) ≤ (rangeCount : ℚ) - 1 := by
    have : ((i + 1 : ℕ) : ℚ) ≤ rangeCount := by exact_mod_cast hi
    push_cast at this
    linarith
  have h2 : (rangeCount : ℚ) ≤ rayCount := by exact_mod_cast hle
  have h3 : (0 : ℚ) ≤ rayCount := by positivity
  have h4 : (1 : ℚ) ≤ rangeCount := by exact_mod_cast hrng
  nlinarith [mul_le_mul_of_nonneg_right h1 h3]

lemma round_samplePos_le (rayCount rangeCount i : ℕ) (hrng : 0 < rangeCount)
    (hle : rangeCount ≤ rayCount) (hi : i < rangeCount) :
    round (samplePos rayCount rangeCount i) ≤ (rayCount : ℤ) - 1 := by
  have hp := samplePos_le_down rayCount rangeCount i hrng hle hi
  rw [round_eq]
  have h1 : samplePos rayCount rangeCount i + 1 / 2 ≤ (rayCount : ℚ) - 1 + 1 / 2 := by
    linarith
  calc ⌊samplePos rayCount rangeCount i + 1 / 2⌋ ≤ ⌊(rayCount : ℚ) - 1 + 1 / 2⌋ :=
        Int.floor_mono h1
    _ = (rayCount : ℤ) - 1 := by
        rw [Int.floor_eq_iff]
        constructor
        · push_cast
          linarith
        · push_cast
          linarith

lemma round_samplePos_nonneg (rayCount rangeCount i : ℕ) :
    0 ≤ round (samplePos rayCount rangeCount i) := by
  rw [round_eq]
  rw [Int.le_floor]
  have := samplePos_nonneg rayCount rangeCount i
  push_cast
  linarith

lemma nearestIdx_eq (rayCount rangeCount i : ℕ) (hrng : 0 < rangeCount)
    (hle : rangeCount ≤ rayCount) (hi : i < rangeCount) :
    nearestIdx rayCount rangeCount i =
      (round (samplePos rayCount rangeCount i)).toNat := by
  unfold nearestIdx
  have h1 := round_samplePos_le rayCount rangeCount i hrng hle hi
  have h2 := round_samplePos_nonneg rayCount rangeCount i
  omega

lemma nearestIdx_lt (rayCount rangeCount i : ℕ) (hray : 0 < rayCount) :
    nearestIdx rayCount rangeCount i < rayCount := by
  unfold nearestIdx
  omega

lemma lowerIdx_lt (rayCount rangeCount i : ℕ) (hray : 0 < rayCount) :
    lowerIdx rayCount rangeCount i < rayCount := by
  unfold lowerIdx
  omega

lemma upperIdx_lt (rayCount rangeCount i : ℕ) (hray : 0 < rayCount) :
    upperIdx rayCount rangeCount i < rayCount := by
  unfold upperIdx
  omega

lemma floor_samplePos_nonneg (rayCount rangeCount i : ℕ) :
    0 ≤ ⌊samplePos rayCount rangeCount i⌋ :=
  Int.floor_nonneg.mpr (samplePos_nonneg rayCount rangeCount i)

lemma round_eq_floor_of_fract_lt (x : ℚ) (h : Int.fract x < 1 / 2) :
    round x = ⌊x⌋ := by
  rw [round_eq]
  have h0 := Int.fract_nonneg x
  have hx : x + 1 / 2 = (⌊x⌋ : ℚ) + (Int.fract x + 1 / 2) := by
    conv_lhs => rw [← Int.floor_add_fract x]
    ring
  rw [hx, Int.floor_int_add]
  have : ⌊Int.fract x + 1 / 2⌋ = 0 := by
    rw [Int.floor_eq_zero_iff]
    constructor
    · linarith
    · linarith
  omega

lemma round_eq_floor_succ_of_le_fract (x : ℚ) (h : 1 / 2 ≤ Int.fract x) :
    round x = ⌊x⌋ + 1 := by
  rw [round_eq]
  have h1 := Int.fract_lt_one x
  have hx : x + 1 / 2 = (⌊x⌋ : ℚ) + (Int.fract x + 1 / 2) := by
    conv_lhs => rw [← Int.floor_add_fract x]
    ring
  rw [hx, Int.floor_int_add]
  have : ⌊Int.fract x + 1 / 2⌋ = 1 := by
    rw [Int.floor_eq_iff]
    constructor
    · push_cast
      linarith
    · push_cast
      linarith
  omega

lemma nearestIdx_self (n i : ℕ) (hn : 0 < n) (hi : i < n) :
    nearestIdx n n i = i := by
  unfold nearestIdx
  rw [samplePos_self n i hn, round_natCast]
  omega

lemma resample1D_id {α : Type} [Inhabited α] (lerp : ℚ → α → α → α)
    (n : ℕ) (raw : List α) (hlen : raw.length = n) :
    resample1D lerp n n raw = raw := by
  apply List.ext_getElem
  · rw [resample1D_length, hlen]
  · intro i h1 h2
    have hi : i < n := by rwa [resample1D_length] at h1
    rw [← List.getD_eq_getElem _ default h1, ← List.getD_eq_getElem _ default h2,
      resample1D_getD _ _ _ _ _ hi, if_pos le_rfl,
      nearestIdx_self n i (by omega) hi]

lemma map_clampSample_id (rmin rmax : ℚ) (row : List RawSample)
    (hin : ∀ s ∈ row, rmin ≤ s.distance ∧ s.distance ≤ rmax) :
    row.map (clampSample rmin rmax) = row := by
  have h : row.map (clampSample rmin rmax) = row.map id :=
    List.map_congr_left
      (fun s hs => clampSample_eq_self rmin rmax s (hin s hs).1 (hin s hs).2)
  rw [h, List.map_id]

lemma resampleAxis_id (rmin rmax : ℚ) (n : ℕ) (row : List RawSample)
    (hlen : row.length = n)
    (hin : ∀ s ∈ row, rmin ≤ s.distance ∧ s.distance ≤ rmax) :
    resampleAxis rmin rmax n n row = row := by
  unfold resampleAxis
  rw [map_clampSample_id rmin rmax row hin, resample1D_id _ n row hlen]

/-- C4: for a configuration whose range count equals its ray count on
both axes and a raw grid of matching dimensions whose samples all lie
within `[rangeMin, rangeMax]`, the resampler output equals the raw
input exactly, elementwise. -/
theorem c4_passthrough_id (c : LidarConfig) (grid : List (List RawSample))
    (hh : c.horzRangeCount = c.horzRayCount)
    (hv : c.vertRangeCount = c.vertRayCount)
    (hglen : grid.length = c.vertRayCount)
    (hrow : ∀ row ∈ grid, row.length = c.horzRayCount)
    (hin : ∀ row ∈ grid, ∀ s ∈ row,
      c.rangeMin ≤ s.distance ∧ s.distance ≤ c.rangeMax) :
    resampleGrid c grid = grid := by
  unfold resampleGrid
  rw [hh, hv]
  have hmap : grid.map
      (resampleAxis c.rangeMin c.rangeMax c.horzRayCount c.horzRayCount) =
      grid.map id :=
    List.map_congr_left (fun row hrw =>
      resampleAxis_id c.rangeMin c.rangeMax c.horzRayCount row
        (hrow row hrw) (hin row hrw))
  rw [hmap, List.map_id, resample1D_id _ _ _ hglen]

/-- Witness for C4 at a concrete 2-by-2 configuration and grid. -/
theorem c4_passthrough_id_witness :
    resampleGrid ⟨2, 2, 2, 2, -1, 1, -1, 1, 0, 10⟩
      [[⟨1, 0, 1⟩, ⟨2, 0, 2⟩], [⟨3, 0, 3⟩, ⟨4, 0, 4⟩]] =
      [[⟨1, 0, 1⟩, ⟨2, 0, 2⟩], [⟨3, 0, 3⟩, ⟨4, 0, 4⟩]] :=
  c4_passthrough_id ⟨2, 2, 2, 2, -1, 1, -1, 1, 0, 10⟩
    [[⟨1, 0, 1⟩, ⟨2, 0, 2⟩], [⟨3, 0, 3⟩, ⟨4, 0, 4⟩]]
    rfl rfl rfl (by decide) (by decide)

/-- C1 (amended): for a downsampling axis (`rangeCount < rayCount`),
each output index equals the clamp to `[rangeMin, rangeMax]` of the raw
sample at the in-bounds index nearest `outputIndex * ratio`
(round-to-nearest, nearest among all integer positions); when every raw
sample already lies within `[rangeMin, rangeMax]` the output equals
that raw sample's value exactly, so no value is invented by
averaging. -/
theorem c1_downsample_nearest (rmin rmax : ℚ) (rayCount rangeCount i : ℕ)
    (raw : List RawSample)
    (hdown : rangeCount < rayCount) (hrng : 0 < rangeCount)
    (hlen : raw.length = rayCount) (hi : i < rangeCount) :
    (round (samplePos rayCount rangeCount i)).toNat < rayCount ∧
    (∀ z : ℤ,
      |samplePos rayCount rangeCount i - round (samplePos rayCount rangeCount i)| ≤
        |samplePos rayCount rangeCount i - z|) ∧
    (resampleAxis rmin rmax rayCount rangeCount raw).getD i default =
      clampSample rmin rmax
        (raw.getD (round (samplePos rayCount rangeCount i)).toNat default) ∧
    ((∀ s ∈ raw, rmin ≤ s.distance ∧ s.distance ≤ rmax) →
      (resampleAxis rmin rmax rayCount rangeCount raw).getD i default =
        raw.getD (round (samplePos rayCount rangeCount i)).toNat default) := by
  have hle : rangeCount ≤ rayCount := le_of_lt hdown
  have hray : 0 < rayCount := lt_of_le_of_lt (Nat.zero_le _) hdown
  have hjn := nearestIdx_eq rayCount rangeCount i hrng hle hi
  have hjlt : (round (samplePos rayCount rangeCount i)).toNat < rayCount := by
    rw [← hjn]
    exact nearestIdx_lt rayCount rangeCount i hray
  have hmain : (resampleAxis rmin rmax rayCount rangeCount raw).getD i default =
      clampSample rmin rmax
        (raw.getD (round (samplePos rayCount rangeCount i)).toNat default) := by
    unfold resampleAxis
    rw [resample1D_getD sampleLerp rayCount rangeCount _ i hi, if_pos hle, hjn]
    exact getD_map_lt _ raw _ (hlen ▸ hjlt)
  refine ⟨hjlt, fun z => round_le _ z, hmain, fun hin => ?_⟩
  rw [hmain]
  have hmem : raw.getD (round (samplePos rayCount rangeCount i)).toNat default ∈ raw := by
    rw [List.getD_eq_getElem raw default (hlen ▸ hjlt)]
    exact List.getElem_mem _
  exact clampSample_eq_self rmin rmax _ (hin _ hmem).1 (hin _ hmem).2

/-- C1 counterexample: with `rangeCount = 1 < 2 = rayCount`,
`rangeMax = 10` and a raw grid both of whose samples have the
out-of-range distance `20`, the output at index 0 is the clamped value
`10`, not the raw sample at the nearest index as the claim states for
every raw grid. -/
theorem c1_counterexample :
    (resampleAxis 0 10 2 1 [⟨20, 1, -1⟩, ⟨20, 1, -1⟩]).getD 0 default ≠
      ([⟨20, 1, -1⟩, ⟨20, 1, -1⟩] : List RawSample).getD
        (round (samplePos 2 1 0)).toNat default := by
  have h1 : nearestIdx 2 1 0 = 0 := by norm_num [nearestIdx, samplePos, round_eq]
  have h2 : round (samplePos 2 1 0) = 0 := by norm_num [samplePos, round_eq]
  simp [resampleAxis, resample1D, h1, h2, clampSample, RawSample.mk.injEq]
  norm_num

/-- Witness for C1 at the spec's downsampling example
(8 rays into 4 ranges, output index 1 reads raw index 2). -/
theorem c1_witness :
    (resampleAxis 0 10 8 4
        [⟨1, 0, 0⟩, ⟨1, 0, 0⟩, ⟨2, 0, 0⟩, ⟨2, 0, 0⟩,
          ⟨3, 0, 0⟩, ⟨3, 0, 0⟩, ⟨4, 0, 0⟩, ⟨4, 0, 0⟩]).getD 1 default =
      clampSample 0 10
        (([⟨1, 0, 0⟩, ⟨1, 0, 0⟩, ⟨2, 0, 0⟩, ⟨2, 0, 0⟩,
          ⟨3, 0, 0⟩, ⟨3, 0, 0⟩, ⟨4, 0, 0⟩, ⟨4, 0, 0⟩] : List RawSample).getD
          (round (samplePos 8 4 1)).toNat default) :=
  (c1_downsample_nearest 0 10 8 4 1
    [⟨1, 0, 0⟩, ⟨1, 0, 0⟩, ⟨2, 0, 0⟩, ⟨2, 0, 0⟩,
      ⟨3, 0, 0⟩, ⟨3, 0, 0⟩, ⟨4, 0, 0⟩, ⟨4, 0, 0⟩]
    (by norm_num) (by norm_num) rfl (by norm_num)).2.2.1

lemma sampleLerp_distance (f : ℚ) (a b : RawSample) :
    (sampleLerp f a b).distance = lerpQ f a.distance b.distance := rfl

lemma sampleLerp_fiducialId (f : ℚ) (a b : RawSample) :
    (sampleLerp f a b).fiducialId =
      if f < 1 / 2 then a.fiducialId else b.fiducialId := rfl

lemma clampSample_distance_bounds (rmin rmax : ℚ) (s : RawSample) (hmm : rmin ≤ rmax) :
    rmin ≤ (clampSample rmin rmax s).distance ∧
      (clampSample rmin rmax s).distance ≤ rmax := by
  rw [clampSample_distance]
  exact ⟨le_max_left _ _, max_le hmm (min_le_left _ _)⟩

/-- C3: for an upsampling axis (`rangeCount > rayCount`), each output
index is the linear interpolation of the two clamped raw samples
nearest the fractional position `outputIndex * ratio`; the output
distance lies between the two clamped neighbor distances, the fiducial
id is copied from the nearer of the two neighbors (the round-to-nearest
index, nearest among all integer positions), never interpolated. -/
theorem c3_upsample_lerp (rmin rmax : ℚ) (rayCount rangeCount i : ℕ)
    (raw : List RawSample)
    (hup : rayCount < rangeCount) (hray : 0 < rayCount)
    (hlen : raw.length = rayCount) (hi : i < rangeCount) :
    (resampleAxis rmin rmax rayCount rangeCount raw).getD i default =
      sampleLerp (fracPos rayCount rangeCount i)
        (clampSample rmin rmax (raw.getD (lowerIdx rayCount rangeCount i) default))
        (clampSample rmin rmax (raw.getD (upperIdx rayCount rangeCount i) default)) ∧
    min (clampSample rmin rmax (raw.getD (lowerIdx rayCount rangeCount i) default)).distance
        (clampSample rmin rmax (raw.getD (upperIdx rayCount rangeCount i) default)).distance ≤
      ((resampleAxis rmin rmax rayCount rangeCount raw).getD i default).distance ∧
    ((resampleAxis rmin rmax rayCount rangeCount raw).getD i default).distance ≤
      max (clampSample rmin rmax (raw.getD (lowerIdx rayCount rangeCount i) default)).distance
        (clampSample rmin rmax (raw.getD (upperIdx rayCount rangeCount i) default)).distance ∧
    ((resampleAxis rmin rmax rayCount rangeCount raw).getD i default).fiducialId =
      (raw.getD (nearestIdx rayCount rangeCount i) default).fiducialId ∧
    (∀ z : ℤ,
      |samplePos rayCount rangeCount i - round (samplePos rayCount rangeCount i)| ≤
        |samplePos rayCount rangeCount i - z|) := by
  have hnle : ¬ rangeCount ≤ rayCount := not_le.mpr hup
  have hfr0 : 0 ≤ fracPos rayCount rangeCount i := Int.fract_nonneg _
  have hfr1 : fracPos rayCount rangeCount i ≤ 1 :=
    le_of_lt (Int.fract_lt_one _)
  have hmain : (resampleAxis rmin rmax rayCount rangeCount raw).getD i default =
      sampleLerp (fracPos rayCount rangeCount i)
        (clampSample rmin rmax (raw.getD (lowerIdx rayCount rangeCount i) default))
        (clampSample rmin rmax (raw.getD (upperIdx rayCount rangeCount i) default)) := by
    unfold resampleAxis
    rw [resample1D_getD sampleLerp rayCount rangeCount _ i hi, if_neg hnle,
      getD_map_lt _ raw _ (hlen ▸ lowerIdx_lt rayCount rangeCount i hray),
      getD_map_lt _ raw _ (hlen ▸ upperIdx_lt rayCount rangeCount i hray)]
  have hbounds := lerpQ_bounds (fracPos rayCount rangeCount i)
    (clampSample rmin rmax (raw.getD (lowerIdx rayCount rangeCount i) default)).distance
    (clampSample rmin rmax (raw.getD (upperIdx rayCount rangeCount i) default)).distance
    hfr0 hfr1
  have hfid : (sampleLerp (fracPos rayCount rangeCount i)
      (clampSample rmin rmax (raw.getD (lowerIdx rayCount rangeCount i) default))
      (clampSample rmin rmax (raw.getD (upperIdx rayCount rangeCount i) default))).fiducialId =
      (raw.getD (nearestIdx rayCount rangeCount i) default).fiducialId := by
    have hfl := floor_samplePos_nonneg rayCount rangeCount i
    by_cases hf : fracPos rayCount rangeCount i < 1 / 2
    · have hround : round (samplePos rayCount rangeCount i) =
          ⌊samplePos rayCount rangeCount i⌋ :=
        round_eq_floor_of_fract_lt _ hf
      have hidx : nearestIdx rayCount rangeCount i = lowerIdx rayCount rangeCount i := by
        unfold nearestIdx lowerIdx
        rw [hround]
      rw [hidx, sampleLerp_fiducialId, if_pos hf, clampSample_fiducialId]
    · have hf' : 1 / 2 ≤ fracPos rayCount rangeCount i := le_of_not_lt hf
      have hround : round (samplePos rayCount rangeCount i) =
          ⌊samplePos rayCount rangeCount i⌋ + 1 :=
        round_eq_floor_succ_of_le_fract _ hf'
      have hidx : nearestIdx rayCount rangeCount i = upperIdx rayCount rangeCount i := by
        unfold nearestIdx upperIdx
        rw [hround]
        omega
      rw [hidx, sampleLerp_fiducialId, if_neg hf, clampSample_fiducialId]
  refine ⟨hmain, ?_, ?_, ?_, fun z => round_le _ z⟩
  · rw [hmain]
    exact hbounds.1
  · rw [hmain]
    exact hbounds.2
  · rw [hmain]
    exact hfid

/-- Witness for C3 at the spec's upsampling example (4 rays into
8 ranges, raw distances 1..4: output index 1 sits at position 0.5 and
interpolates to 1.5). -/
theorem c3_witness :
    (resampleAxis 0 10 4 8 [⟨1, 0, 0⟩, ⟨2, 0, 0⟩, ⟨3, 0, 0⟩, ⟨4, 0, 0⟩]).getD 1 default =
      sampleLerp (fracPos 4 8 1)
        (clampSample 0 10
          (([⟨1, 0, 0⟩, ⟨2, 0, 0⟩, ⟨3, 0, 0⟩, ⟨4, 0, 0⟩] : List RawSample).getD
            (lowerIdx 4 8 1) default))
        (clampSample 0 10
          (([⟨1, 0, 0⟩, ⟨2, 0, 0⟩, ⟨3, 0, 0⟩, ⟨4, 0, 0⟩] : List RawSample).getD
            (upperIdx 4 8 1) default)) ∧
    ((resampleAxis 0 10 4 8 [⟨1, 0, 0⟩, ⟨2, 0, 0⟩, ⟨3, 0, 0⟩, ⟨4, 0, 0⟩]).getD 1
        default).distance = 3 / 2 := by
  have h := c3_upsample_lerp 0 10 4 8 1 [⟨1, 0, 0⟩, ⟨2, 0, 0⟩, ⟨3, 0, 0⟩, ⟨4, 0, 0⟩]
    (by norm_num) (by norm_num) rfl (by norm_num)
  refine ⟨h.1, ?_⟩
  have e1 : lowerIdx 4 8 1 = 0 := by norm_num [lowerIdx, samplePos]
  have e2 : upperIdx 4 8 1 = 1 := by norm_num [upperIdx, samplePos]
  have e3 : fracPos 4 8 1 = 1 / 2 := by norm_num [fracPos, samplePos, Int.fract]
  rw [h.1, e1, e2, e3, sampleLerp_distance]
  simp [List.getD, clampSample_distance, lerpQ]
  norm_num

/-- C2 (amended): every input sample is clamped to
`[rangeMin, rangeMax]` before any selection or interpolation, so every
output distance lies in `[rangeMin, rangeMax]`; on the
nearest-selection path (`rangeCount ≤ rayCount`), an output whose
source sample is a no-detection sentinel (distance at least `rangeMax`)
equals exactly `rangeMax`.  On the interpolation path a sentinel
neighbor contributes as exactly `rangeMax` to the weighted average, but
the average with a detected neighbor can still lie below `rangeMax`
(see the counterexample). -/
theorem c2_clamp_bounds (rmin rmax : ℚ) (rayCount rangeCount i : ℕ)
    (raw : List RawSample)
    (hmm : rmin ≤ rmax) (hray : 0 < rayCount) (hrng : 0 < rangeCount)
    (hlen : raw.length = rayCount) (hi : i < rangeCount) :
    rmin ≤ ((resampleAxis rmin rmax rayCount rangeCount raw).getD i default).distance ∧
    ((resampleAxis rmin rmax rayCount rangeCount raw).getD i default).distance ≤ rmax ∧
    (rangeCount ≤ rayCount →
      rmax ≤ (raw.getD (nearestIdx rayCount rangeCount i) default).distance →
      ((resampleAxis rmin rmax rayCount rangeCount raw).getD i default).distance = rmax) := by
  unfold resampleAxis
  rw [resample1D_getD sampleLerp rayCount rangeCount _ i hi]
  by_cases hc : rangeCount ≤ rayCount
  · rw [if_pos hc,
      getD_map_lt _ raw _ (hlen ▸ nearestIdx_lt rayCount rangeCount i hray),
      clampSample_distance]
    refine ⟨le_max_left _ _, max_le hmm (min_le_left _ _), fun _ hge => ?_⟩
    rw [min_eq_left hge, max_eq_right hmm]
  · rw [if_neg hc,
      getD_map_lt _ raw _ (hlen ▸ lowerIdx_lt rayCount rangeCount i hray),
      getD_map_lt _ raw _ (hlen ▸ upperIdx_lt rayCount rangeCount i hray),
      sampleLerp_distance]
    have ha := clampSample_distance_bounds rmin rmax
      (raw.getD (lowerIdx rayCount rangeCount i) default) hmm
    have hb := clampSample_distance_bounds rmin rmax
      (raw.getD (upperIdx rayCount rangeCount i) default) hmm
    have hbounds := lerpQ_bounds (fracPos rayCount rangeCount i)
      (clampSample rmin rmax (raw.getD (lowerIdx rayCount rangeCount i) default)).distance
      (clampSample rmin rmax (raw.getD (upperIdx rayCount rangeCount i) default)).distance
      (Int.fract_nonneg _) (le_of_lt (Int.fract_lt_one _))
    refine ⟨le_trans (le_min ha.1 hb.1) hbounds.1,
      le_trans hbounds.2 (max_le ha.2 hb.2), fun hc' => absurd hc' hc⟩

/-- C2 counterexample: upsampling 2 rays into 3 ranges with
`rangeMax = 10`, a detected neighbor at distance 5 and a sentinel
neighbor at distance 20: output index 1 is sourced from the sentinel
sample yet its distance (25/3) lies strictly below `rangeMax` — the
clamped sentinel is averaged with the detected neighbor, contradicting
the claim that such an output equals exactly `rangeMax`. -/
theorem c2_counterexample :
    ((resampleAxis 0 10 2 3 [⟨5, 1, -1⟩, ⟨20, 1, 7⟩]).getD 1 default).distance < 10 ∧
    10 ≤ (([⟨5, 1, -1⟩, ⟨20, 1, 7⟩] : List RawSample).getD (upperIdx 2 3 1) default).distance := by
  have e1 : lowerIdx 2 3 1 = 0 := by norm_num [lowerIdx, samplePos]
  have e2 : upperIdx 2 3 1 = 1 := by norm_num [upperIdx, samplePos]
  have e3 : fracPos 2 3 1 = 2 / 3 := by norm_num [fracPos, samplePos, Int.fract]
  constructor
  · unfold resampleAxis
    rw [resample1D_getD sampleLerp 2 3 _ 1 (by norm_num), if_neg (by norm_num),
      e1, e2, e3, sampleLerp_distance]
    simp [List.getD, clampSample_distance, lerpQ]
    norm_num
  · rw [e2]
    simp [List.getD]
    norm_num

/-- Witness for C2 at the spec's sentinel example: a no-detection
sample (distance 20, beyond `rangeMax = 10`) selected by the
nearest-index path appears as exactly 10 in the output. -/
theorem c2_witness :
    ((resampleAxis 0 10 2 1 [⟨20, 1, -1⟩, ⟨20, 1, -1⟩]).getD 0 default).distance = 10 := by
  have h := c2_clamp_bounds 0 10 2 1 0 [⟨20, 1, -1⟩, ⟨20, 1, -1⟩]
    (by norm_num) (by norm_num) (by norm_num) rfl (by norm_num)
  refine h.2.2 (by norm_num) ?_
  have e1 : nearestIdx 2 1 0 = 0 := by norm_num [nearestIdx, samplePos, round_eq]
  rw [e1]
  simp [List.getD]
  norm_num

/-- C5: when the sensor is active and loaded but the intersection
backend cannot supply a sample grid for the tick, `Update` returns
failure, the state (and with it the previously current scan buffer) is
unchanged, and no frame callback fires. -/
theorem c5_backend_missing (s : LidarState) (ha : s.active = true)
    (hini : s.inited = true) :
    Lidar.Update s none = ⟨false, s, false⟩ := by
  unfold Lidar.Update
  rw [if_neg (by simp [ha, hini])]

/-- Witness for C5 at a concrete active, loaded sensor state. -/
theorem c5_witness :
    Lidar.Update exampleActive none = ⟨false, exampleActive, false⟩ :=
  c5_backend_missing exampleActive rfl rfl

/-- C6: updating twice with an unchanged backend response leaves the
scan buffer identical after the second call to what it was after the
first — the resampled contents depend only on the stored configuration
and the backend grid. -/
theorem c6_update_idempotent (s : LidarState)
    (backend : Option (List (List RawSample))) :
    (Lidar.Update (Lidar.Update s backend).state backend).state.laserBuffer =
      (Lidar.Update s backend).state.laserBuffer := by
  by_cases h : s.active = false ∨ s.inited = false
  · simp [Lidar.Update, h]
  · cases backend with
    | none => simp [Lidar.Update, h]
    | some grid => simp [Lidar.Update, h]

/-- C7: after a successful `Load`, the angle resolutions are
`(angleMax - angleMin) / max (rangeCount - 1) 1` on each axis, as pure
functions of the stored configuration. -/
theorem c7_angle_resolution (s : LidarState) (c : LidarConfig) (s2 : LidarState)
    (h : Lidar.Load s c = Except.ok s2) :
    Lidar.AngleResolution s2 =
      (c.angleMax - c.angleMin) / ((max (c.horzRangeCount - 1) 1 : ℕ) : ℚ) ∧
    Lidar.VerticalAngleResolution s2 =
      (c.verticalAngleMax - c.verticalAngleMin) / ((max (c.vertRangeCount - 1) 1 : ℕ) : ℚ) := by
  unfold Lidar.Load at h
  by_cases hv : validConfig c
  · rw [if_pos hv] at h
    injection h with h2
    subst h2
    exact ⟨rfl, rfl⟩
  · rw [if_neg hv] at h
    exact Except.noConfusion h

/-- Witness for C7 at the spec's example configuration: horizontal
resolution `(1 - (-1)) / 3 = 2/3`, vertical resolution `0`. -/
theorem c7_witness :
    Lidar.AngleResolution exampleLoaded = 2 / 3 ∧
    Lidar.VerticalAngleResolution exampleLoaded = 0 := by
  have hload : Lidar.Load Lidar.new exampleConfig = Except.ok exampleLoaded := by
    unfold Lidar.Load
    rw [if_pos (show validConfig exampleConfig by norm_num [validConfig, exampleConfig])]
    rfl
  have h := c7_angle_resolution Lidar.new exampleConfig exampleLoaded hload
  constructor
  · rw [h.1]
    norm_num [exampleConfig, show (max (4 - 1) 1 : ℕ) = 3 from rfl]
  · rw [h.2]
    norm_num [exampleConfig, show (max (1 - 1) 1 : ℕ) = 1 from rfl]

/-- C8: any accessor index outside
`[0, horzRangeCount * vertRangeCount)` — in particular any negative
signed index — makes `Range` and `Retro` fail with the out-of-range
error instead of returning buffer data. -/
theorem c8_out_of_bounds (s : LidarState) (i : ℤ)
    (h : i < 0 ∨ ((s.cfg.horzRangeCount * s.cfg.vertRangeCount : ℕ) : ℤ) ≤ i) :
    Lidar.Range s i = .error .indexOutOfRange ∧
    Lidar.Retro s i = .error .indexOutOfRange := by
  unfold Lidar.Range Lidar.Retro
  rw [if_pos h, if_pos h]
  exact ⟨rfl, rfl⟩

/-- Witness for C8 at the negative index `-1` on a fresh sensor. -/
theorem c8_witness :
    Lidar.Range Lidar.new (-1) = .error .indexOutOfRange ∧
    Lidar.Retro Lidar.new (-1) = .error .indexOutOfRange :=
  c8_out_of_bounds Lidar.new (-1) (Or.inl (by norm_num))

/-- C10: a freshly constructed sensor has `initialized = false` and a
null laser buffer (header defaults), and every accessor called in that
state returns an error instead of reading through the null buffer. -/
theorem c10_fresh_null :
    Lidar.new.inited = false ∧ Lidar.new.laserBuffer = none ∧
    (∀ i : ℤ, ∃ e, Lidar.Range Lidar.new i = .error e) ∧
    (∀ i : ℤ, ∃ e, Lidar.Retro Lidar.new i = .error e) ∧
    (∀ i : ℕ, ∃ e, Lidar.Fiducial Lidar.new i = .error e) ∧
    (∃ e, Lidar.Ranges Lidar.new = .error e) := by
  have hcond : ∀ i : ℤ,
      i < 0 ∨ ((Lidar.new.cfg.horzRangeCount * Lidar.new.cfg.vertRangeCount : ℕ) : ℤ) ≤ i := by
    intro i
    rcases lt_or_le i 0 with h | h
    · exact Or.inl h
    · exact Or.inr (by simpa [Lidar.new, defaultConfig] using h)
  refine ⟨rfl, rfl, ?_, ?_, ?_, ⟨.notInited, rfl⟩⟩
  · intro i
    refine ⟨.indexOutOfRange, ?_⟩
    unfold Lidar.Range
    rw [if_pos (hcond i)]
  · intro i
    refine ⟨.indexOutOfRange, ?_⟩
    unfold Lidar.Retro
    rw [if_pos (hcond i)]
  · intro i
    refine ⟨.indexOutOfRange, ?_⟩
    unfold Lidar.Fiducial
    rw [if_pos (by simp [Lidar.new, defaultConfig])]
